import Mathlib

/-!
# Verification of the `apns` package (Send orchestration, connection pool, PEM loading)

A shallow embedding of the Go sources `client.go` and `apns.go`.  External
effects (dialing, TLS handshakes, socket reads/writes, cryptographic parsing)
are supplied by explicit oracle values: each `Send` recursion level consumes
one `AttemptEnv` describing the outcomes of its connect / encode / write /
read steps, and PEM loading receives a `CryptoEnv` of abstract parsers.
All state the Go code mutates (the notification's retry count and last error,
each connection's `Connected` flag, the pool channel's contents, the
`sync.Once` initialization barrier) is threaded explicitly.
-/

namespace APNS

/-- `APNSStatusCodes` from `client.go`: Go map from status byte to message.
A lookup of a key absent from the map yields Go's zero value `""`. -/
def APNSStatusCodes : Nat → String := fun s =>
  match s with
  | 0 => "No errors encountered"
  | 1 => "Processing error"
  | 2 => "Missing device token"
  | 3 => "Missing topic"
  | 4 => "Missing payload"
  | 5 => "Invalid token size"
  | 6 => "Invalid topic size"
  | 7 => "Invalid payload size"
  | 8 => "Invalid token"
  | 10 => "Shutdown"
  | 255 => "None (unknown)"
  | _ => ""

/-- `APNSConn` from `apns.go`, restricted to the claim-relevant mutable state:
`connected` is the `Connected` flag, `hasTls` records whether `TlsConn` is
non-nil, and `id` identifies the connection object so pool membership can be
tracked.  (The `Gateway`, `TlsCfg`, `GaeConn` and the constant 150ms
`ReadTimeout` fields carry no state the claims depend on.) -/
structure APNSConn where
  id : Nat
  connected : Bool
  hasTls : Bool
deriving Repr, DecidableEq

/-- `APNSConn.Close` from `apns.go`: closes the TLS handle and clears
`Connected`, but only when a TLS handle exists (`c.TlsConn != nil`). -/
def APNSConn.close (c : APNSConn) : APNSConn :=
  if c.hasTls then { c with connected := false } else c

/-- Oracle for one call of `APNSConn.connect`: the dial can fail, the TLS
handshake can fail, or both succeed. -/
inductive ConnectOutcome
  | ok
  | dialErr (e : String)
  | handshakeErr (e : String)
deriving Repr, DecidableEq

/-- `APNSConn.connect` from `apns.go`: a no-op when already `Connected`
(refreshing the context only); otherwise it closes any stale handle, dials,
wraps the stream in a TLS client and handshakes, setting `Connected` only on
handshake success.  A dial failure returns before a new handle is installed;
a handshake failure leaves the fresh handle installed but `Connected` false. -/
def APNSConn.connect (c : APNSConn) (o : ConnectOutcome) : Option String × APNSConn :=
  if c.connected then (none, c)
  else
    let c1 := if c.hasTls then c.close else c
    match o with
    | .dialErr e => (some e, c1)
    | .handshakeErr e => (some e, { c1 with hasTls := true })
    | .ok => (none, { c1 with hasTls := true, connected := true })

/-- `PushNotification`, restricted to the fields `Send` reads and writes:
the retry budget `RetryCount` (a Go `int`) and the last recorded error
`Error` (`none` models a nil `error`). -/
structure PushNotification where
  retryCount : Int
  error : Option String
deriving Repr, DecidableEq

/-- Outcome of the blocking `conn.TlsConn.Read` with its deadline, as `Send`
observes it: the deadline expired, the peer closed cleanly (`io.EOF`), some
other transport error occurred, or `r` bytes arrived.  `buf` is the content
of the 6-byte zero-initialized buffer after the read (entries past `r` are
therefore 0 for a genuine short read). -/
inductive ReadOutcome
  | timeout
  | eof
  | otherErr (e : String)
  | data (r : Nat) (buf : List Nat)
deriving Repr, DecidableEq

/-- The oracle for one recursion level of `Send`: the outcomes of its
`connect`, `ToBytes`, `Write` and `Read` calls, in program order. -/
structure AttemptEnv where
  connectO : ConnectOutcome
  toBytesO : Except String (List Nat)
  writeO : Option String
  readO : ReadOutcome
deriving Repr

/-- Result of a `Send` call.  `nilDeref` marks a nil-pointer dereference
(either `n.Error.Error()` with a nil `Error`, or `pool.Get()` with a nil
`pool`); `blocked` marks a `pool.Get()` that blocks forever because the
channel is empty and every potential releaser is below it on the call stack;
`stuck` is a modelling artifact for an exhausted oracle list. -/
inductive SendResult
  | ok
  | err (msg : String)
  | nilDeref
  | blocked
  | stuck
deriving Repr, DecidableEq

/-- The observable outcome of a `Send` call: its return value, the
notification as mutated, the pool channel's contents after all deferred
`Release` calls have run, and the number of connect/write cycles performed. -/
structure SendOut where
  res : SendResult
  notif : PushNotification
  pool : List APNSConn
  attempts : Nat
deriving Repr, DecidableEq

/-- The body of `APNSClient.Send` from `client.go` after the `sync.Once`
block, with the pool passed explicitly (`none` models the nil `pool` global
left behind by a failed initialization).  One `AttemptEnv` is consumed per
recursion level.  The pool channel is FIFO: `Get` receives from the front,
the deferred `Release` appends at the back after the recursive call (and
hence the inner levels' releases) completed. -/
def sendGo (envs : List AttemptEnv) (n : PushNotification)
    (po : Option (List APNSConn)) : SendOut :=
  if n.retryCount ≤ 0 then
    match n.error with
    | some e => ⟨.err ("Retried more than 3 times: " ++ e), n, po.getD [], 0⟩
    | none => ⟨.nilDeref, n, po.getD [], 0⟩
  else
    let n1 : PushNotification := { n with retryCount := n.retryCount - 1 }
    match po with
    | none => ⟨.nilDeref, n1, [], 0⟩
    | some [] => ⟨.blocked, n1, [], 0⟩
    | some (conn :: rest) =>
      match envs with
      | [] => ⟨.stuck, n1, rest ++ [conn], 0⟩
      | env :: envs1 =>
        match APNSConn.connect conn env.connectO with
        | (some e, conn1) => ⟨.err e, n1, rest ++ [conn1], 1⟩
        | (none, conn1) =>
          match env.toBytesO with
          | .error e => ⟨.err e, n1, rest ++ [conn1], 1⟩
          | .ok _payload =>
            match env.writeO with
            | some _e =>
              let conn2 : APNSConn := { conn1 with connected := false }
              let n2 : PushNotification := { n1 with error := some "Connection closed" }
              let out := sendGo envs1 n2 (some rest)
              ⟨out.res, out.notif, out.pool ++ [conn2], out.attempts + 1⟩
            | none =>
              match env.readO with
              | .timeout => ⟨.ok, n1, rest ++ [conn1], 1⟩
              | .eof =>
                let conn2 : APNSConn := { conn1 with connected := false }
                let n2 : PushNotification := { n1 with error := some "Connection closed" }
                let out := sendGo envs1 n2 (some rest)
                ⟨out.res, out.notif, out.pool ++ [conn2], out.attempts + 1⟩
              | .otherErr e => ⟨.err e, n1, rest ++ [conn1], 1⟩
              | .data _r buf =>
                let status := buf.getD 1 0 % 256
                if status = 0 then ⟨.ok, n1, rest ++ [conn1], 1⟩
                else if 1 ≤ status ∧ status ≤ 8 then
                  let conn2 : APNSConn := { conn1 with connected := false }
                  let n2 : PushNotification := { n1 with error := some (APNSStatusCodes status) }
                  let out := sendGo envs1 n2 (some rest)
                  ⟨out.res, out.notif, out.pool ++ [conn2], out.attempts + 1⟩
                else
                  let conn2 : APNSConn := { conn1 with connected := false }
                  let n2 : PushNotification := { n1 with error := some "Unknown error" }
                  let out := sendGo envs1 n2 (some rest)
                  ⟨out.res, out.notif, out.pool ++ [conn2], out.attempts + 1⟩

/-- `maxPoolSize` from `apns.go`. -/
def maxPoolSize : Nat := 5

/-- The pool contents produced by a successful `newAPNSPool`: `maxPoolSize`
fresh connections (`Connected` false, no TLS handle yet), one per loop
iteration of `newAPNSPool`. -/
def freshPool : List APNSConn :=
  (List.range maxPoolSize).map (fun i => ⟨i, false, false⟩)

/-- `newAPNSPool` from `apns.go`: builds `maxPoolSize` connections via
`newAPNSConn`; each calls `LoadPemFile` with the same arguments, so one
oracle value (`loadResult`, the error of `LoadPemFile` if any) determines
success of all iterations; the first failure aborts the whole construction. -/
def newAPNSPool (loadResult : Option String) : Except String (List APNSConn) :=
  match loadResult with
  | some e => .error e
  | none => .ok freshPool

/-- The process-global state shared by all `Send` calls: whether
`apnsInitSync.Do` has already run, and the `pool` global (`none` is Go nil). -/
structure GlobalSt where
  onceDone : Bool
  pool : Option (List APNSConn)
deriving Repr, DecidableEq

/-- `APNSClient.Send` from `client.go`, including the `sync.Once`
initialization barrier.  `sync.Once.Do` runs its function only on the very
first call; the local `err` of any later call stays nil even when that first
construction failed, because the failure is recorded nowhere. -/
def Send (loadResult : Option String) (envs : List AttemptEnv)
    (n : PushNotification) (g : GlobalSt) : SendOut × GlobalSt :=
  let step : Option String × GlobalSt :=
    if g.onceDone then (none, g)
    else
      match newAPNSPool loadResult with
      | .ok cs => (none, ⟨true, some cs⟩)
      | .error e => (some e, ⟨true, none⟩)
  match step with
  | (some e, g1) => (⟨.err e, n, [], 0⟩, g1)
  | (none, g1) =>
    let out := sendGo envs n g1.pool
    (out, ⟨g1.onceDone, match g1.pool with | none => none | some _ => some out.pool⟩)

/-! ## Connection pool as a blocking channel (`apns.go`: `Get` / `Release`)

The pool is a buffered Go channel of capacity `maxPoolSize`, created full.
`Get` is a channel receive (blocking while the channel is empty) and
`Release` a channel send.  The abstract state tracks how many connections
are available in the channel and how many are checked out. -/

/-- Abstract state of the pool channel: `available` connections buffered in
the channel, `checkedOut` connections currently held by callers. -/
structure PoolState where
  available : Nat
  checkedOut : Nat
deriving Repr, DecidableEq

/-- One step of the pool discipline: `Get` (a receive, enabled only when the
channel is non-empty) or `Release` (a send by a holder). -/
inductive PoolStep : PoolState → PoolState → Prop
  | get (a c : Nat) : PoolStep ⟨a + 1, c⟩ ⟨a, c + 1⟩
  | release (a c : Nat) : PoolStep ⟨a, c + 1⟩ ⟨a + 1, c⟩

/-- States reachable from a freshly constructed pool of `N` connections
(`newAPNSPool` fills the channel with `N` connections; none checked out). -/
inductive PoolReach (N : Nat) : PoolState → Prop
  | init : PoolReach N ⟨N, 0⟩
  | step {s t : PoolState} : PoolReach N s → PoolStep s t → PoolReach N t

/-! ## `LoadPem` from `apns.go`

The cryptographic primitives (`x509.DecryptPEMBlock`,
`x509.ParsePKCS1PrivateKey`, `x509.ParsePKCS8PrivateKey`,
`x509.ParseCertificate`) are external to the repository and are supplied as
an oracle environment; `pem.Decode` is modelled by presenting the input as
the sequence of PEM blocks it yields. -/

/-- Public-key algorithm of a parsed certificate (`x509.RSA` or anything
else). -/
inductive PublicKeyAlgorithm
  | RSA
  | other
deriving Repr, DecidableEq

/-- An RSA private key, restricted to what `LoadPem` inspects: the public
modulus `key.PublicKey.N`. -/
structure RSAPrivateKey where
  modulus : Nat
deriving Repr, DecidableEq

/-- A parsed certificate, restricted to what `LoadPem` inspects:
`PublicKeyAlgorithm` and the RSA public modulus. -/
structure X509Certificate where
  publicKeyAlgorithm : PublicKeyAlgorithm
  publicKeyModulus : Nat
deriving Repr, DecidableEq

/-- Result of `x509.ParsePKCS8PrivateKey`: an RSA key or a key of some other
type (the `privKey.(*rsa.PrivateKey)` assertion distinguishes them). -/
inductive ParsedPKCS8Key
  | rsa (k : RSAPrivateKey)
  | nonRSA
deriving Repr, DecidableEq

/-- A PEM block as produced by `pem.Decode`: its `Type` header and `Bytes`. -/
structure PemBlock where
  type : String
  bytes : List Nat
deriving Repr, DecidableEq

/-- Oracle environment for the external crypto parsers `LoadPem` calls. -/
structure CryptoEnv where
  decryptPEMBlock : PemBlock → String → Except String (List Nat)
  parsePKCS1PrivateKey : List Nat → Except String RSAPrivateKey
  parsePKCS8PrivateKey : List Nat → Except String ParsedPKCS8Key
  parseCertificate : List Nat → Except String X509Certificate

/-- `tls.Certificate`, restricted to the fields `LoadPem` populates: the DER
chain and the private key.  Mirrors Go's named return value, which starts as
the zero value and is populated incrementally. -/
structure TlsCertificate where
  certificate : List (List Nat)
  privateKey : Option RSAPrivateKey
deriving Repr, DecidableEq

/-- `LoadPem` from `apns.go`, returning the (possibly partially populated)
named return value `cert` together with the returned error, mirroring Go's
`(cert tls.Certificate, err error)` signature.  The block-scanning loop
collects every leading `CERTIFICATE` block and stops at the first other
block, which is taken to be the encrypted key. -/
def LoadPem (env : CryptoEnv) (blocks : List PemBlock) (passphrase : String) :
    TlsCertificate × Option String :=
  let certBlocks := blocks.takeWhile (fun b => b.type = "CERTIFICATE")
  let keyBlocks := blocks.dropWhile (fun b => b.type = "CERTIFICATE")
  let cert : TlsCertificate := ⟨certBlocks.map PemBlock.bytes, none⟩
  if cert.certificate.length = 0 then
    (cert, some "crypto/tls: failed to parse certificate PEM data")
  else
    match keyBlocks with
    | [] => (cert, some "crypto/tls: failed to parse key PEM data")
    | keyBlock :: _ =>
      match env.decryptPEMBlock keyBlock passphrase with
      | .error e => (cert, some ("crypto/tls: passphrase: " ++ e))
      | .ok decryptedBytes =>
        let keyRes : Except String RSAPrivateKey :=
          match env.parsePKCS1PrivateKey decryptedBytes with
          | .ok k => .ok k
          | .error _ =>
            match env.parsePKCS8PrivateKey decryptedBytes with
            | .error e => .error ("crypto/tls: failed to parse key: " ++ e)
            | .ok .nonRSA => .error "crypto/tls: found non-RSA private key in PKCS#8 wrapping"
            | .ok (.rsa k) => .ok k
        match keyRes with
        | .error e => (cert, some e)
        | .ok key =>
          let cert1 : TlsCertificate := { cert with privateKey := some key }
          match env.parseCertificate (cert1.certificate.getD 0 []) with
          | .error e => (cert1, some e)
          | .ok x509Cert =>
            if x509Cert.publicKeyAlgorithm ≠ .RSA ∨ x509Cert.publicKeyModulus ≠ key.modulus then
              (cert1, some "crypto/tls: private key does not match public key")
            else
              (cert1, none)

/-! ## Supporting lemmas -/

/-- The exhaustion branch of `Send`: with a non-positive retry budget and no
recorded error, `n.Error.Error()` dereferences a nil interface. -/
theorem sendGo_exhaust_nilDeref (envs : List AttemptEnv) (n : PushNotification)
    (po : Option (List APNSConn)) (hb : n.retryCount ≤ 0) (he : n.error = none) :
    (sendGo envs n po).res = SendResult.nilDeref := by
  unfold sendGo
  rw [if_pos hb, he]

/-- `connect` never changes the identity of the connection object. -/
theorem connect_id (c : APNSConn) (o : ConnectOutcome) :
    (APNSConn.connect c o).2.id = c.id := by
  obtain ⟨i, cc, ct⟩ := c
  cases cc <;> cases ct <;> cases o <;> rfl

/-! ## Claims -/

/-- C1: the claim says a failed one-time pool construction is observed as a
returned error by every caller, including later ones.  The code records the
construction error only in `Send`'s local `err`; `sync.Once` never re-runs
the constructor, so a second caller proceeds with the nil `pool` global and
crashes in `pool.Get()`.  This theorem evaluates both calls: the first
caller gets the error, the second caller hits the nil dereference. -/
theorem C1_init_failure_not_replayed :
    (Send (some "open cert.pem: no such file or directory") [] ⟨3, none⟩
        ⟨false, none⟩).1.res
      = SendResult.err "open cert.pem: no such file or directory" ∧
    (Send (some "open cert.pem: no such file or directory") [] ⟨3, none⟩
        (Send (some "open cert.pem: no such file or directory") [] ⟨3, none⟩
          ⟨false, none⟩).2).1.res
      = SendResult.nilDeref := by
  constructor <;> rfl

/-- C10: a `Send` whose notification has retry budget ≤ 0 and no recorded
error reaches `n.Error.Error()` with `n.Error` nil and crashes with a nil
dereference instead of returning the exhaustion error, whenever pool
initialization did not itself fail first. -/
theorem C10_nil_error_crash (loadResult : Option String) (envs : List AttemptEnv)
    (n : PushNotification) (g : GlobalSt)
    (hb : n.retryCount ≤ 0) (he : n.error = none)
    (hg : loadResult = none ∨ g.onceDone = true) :
    (Send loadResult envs n g).1.res = SendResult.nilDeref := by
  have key : ∀ po, (sendGo envs n po).res = SendResult.nilDeref :=
    fun po => sendGo_exhaust_nilDeref envs n po hb he
  unfold Send
  rcases hg with hl | ho
  · subst hl
    cases hdone : g.onceDone <;> simp [hdone, newAPNSPool, key]
  · simp [ho, key]

/-- C10 witness: the concrete crash at budget 0 with nil `Error`. -/
theorem C10_nil_error_crash_witness :
    ((0 : Int) ≤ 0) ∧
    (Send none [] ⟨0, none⟩ ⟨false, none⟩).1.res = SendResult.nilDeref :=
  ⟨by decide, C10_nil_error_crash none [] ⟨0, none⟩ ⟨false, none⟩ (by decide) rfl (Or.inl rfl)⟩

/-- C6: with retry budget 3 and every attempt's response frame carrying
status 1, `Send` makes exactly 3 connect/write cycles and returns the
exhaustion error wrapping the last recorded "Processing error" message,
whatever error was recorded on the notification beforehand. -/
theorem C6_budget_exhaustion (e0 : Option String) :
    (sendGo (List.replicate 3 ⟨.ok, .ok [], none, .data 6 [8, 1, 0, 0, 0, 0]⟩)
        ⟨3, e0⟩ (some freshPool)).res
      = SendResult.err "Retried more than 3 times: Processing error" ∧
    (sendGo (List.replicate 3 ⟨.ok, .ok [], none, .data 6 [8, 1, 0, 0, 0, 0]⟩)
        ⟨3, e0⟩ (some freshPool)).attempts = 3 := by
  constructor <;> rfl

/-- C7 counterexample: a read that delivers only 1 byte (so fewer than 6
bytes are available; the zero-initialized buffer holds `[8,0,0,0,0,0]`) is
not rejected as truncated: `Send` classifies status byte `read[1] = 0` from
the short read and returns success. -/
theorem C7_short_read_classified :
    (sendGo [⟨.ok, .ok [], none, .data 1 [8, 0, 0, 0, 0, 0]⟩] ⟨3, none⟩
        (some [⟨0, false, false⟩])).res = SendResult.ok := by
  rfl

/-- C7 amended: `Send` performs no truncation check and never reads the
command or identifier bytes: for any read that returns without error, the
outcome is classified from buffer byte 1 alone, regardless of how many bytes
`r` were actually read.  Status 0 yields success; status 1 is recorded as
"Processing error" and retried (here driven to exhaustion with budget 1). -/
theorem C7_status_only_classification :
    (∀ (r : Nat) (buf : List Nat) (n : PushNotification) (pl : List Nat)
        (c : APNSConn) (rest : List APNSConn) (envs : List AttemptEnv),
        0 < n.retryCount → buf.getD 1 0 % 256 = 0 →
        (sendGo (⟨.ok, .ok pl, none, .data r buf⟩ :: envs) n (some (c :: rest))).res
          = SendResult.ok) ∧
    (∀ (r : Nat) (buf : List Nat),
        buf.getD 1 0 % 256 = 1 →
        (sendGo [⟨.ok, .ok [], none, .data r buf⟩] ⟨1, none⟩
            (some [⟨0, false, false⟩])).res
          = SendResult.err "Retried more than 3 times: Processing error") := by
  constructor
  · intro r buf n pl c rest envs hb hs
    obtain ⟨i, cc, ct⟩ := c
    have hb1 : ¬ (n.retryCount ≤ 0) := by omega
    simp at hs
    cases cc <;> cases ct <;>
      · unfold sendGo
        rw [if_neg hb1]
        simp [APNSConn.connect, APNSConn.close, hs]
  · intro r buf hs
    simp at hs
    simp [sendGo, APNSConn.connect, APNSConn.close, hs, APNSStatusCodes]

/-- C7 witness: concrete short reads driven through both branches of the
amended statement. -/
theorem C7_status_only_classification_witness :
    ((0 : Int) < 2 ∧ ([8, 0, 0, 0, 0, 0] : List Nat).getD 1 0 % 256 = 0 ∧
      (sendGo [⟨.ok, .ok [], none, .data 6 [8, 0, 0, 0, 0, 0]⟩] ⟨2, none⟩
          (some [⟨1, false, false⟩])).res = SendResult.ok) ∧
    (([8, 1, 0, 0, 0, 0] : List Nat).getD 1 0 % 256 = 1 ∧
      (sendGo [⟨.ok, .ok [], none, .data 2 [8, 1, 0, 0, 0, 0]⟩] ⟨1, none⟩
          (some [⟨0, false, false⟩])).res
        = SendResult.err "Retried more than 3 times: Processing error") :=
  ⟨⟨by decide, by decide,
    C7_status_only_classification.1 6 [8, 0, 0, 0, 0, 0] ⟨2, none⟩ []
      ⟨1, false, false⟩ [] [] (by decide) (by decide)⟩,
   ⟨by decide,
    C7_status_only_classification.2 2 [8, 1, 0, 0, 0, 0] (by decide)⟩⟩

/-- C5: when the read deadline expires before any response data or transport
error arrives, `Send` returns success, exactly the initial attempt's single
unit of retry budget is consumed, and no retry recursion occurs (exactly one
connect/write cycle is performed). -/
theorem C5_timeout_success (n : PushNotification) (pl : List Nat) (c : APNSConn)
    (rest : List APNSConn) (envs : List AttemptEnv) (hb : 0 < n.retryCount) :
    (sendGo (⟨.ok, .ok pl, none, .timeout⟩ :: envs) n (some (c :: rest))).res
      = SendResult.ok ∧
    (sendGo (⟨.ok, .ok pl, none, .timeout⟩ :: envs) n (some (c :: rest))).notif.retryCount
      = n.retryCount - 1 ∧
    (sendGo (⟨.ok, .ok pl, none, .timeout⟩ :: envs) n (some (c :: rest))).attempts = 1 := by
  obtain ⟨i, cc, ct⟩ := c
  have hb1 : ¬ (n.retryCount ≤ 0) := by omega
  cases cc <;> cases ct <;>
    · unfold sendGo
      rw [if_neg hb1]
      simp [APNSConn.connect, APNSConn.close]

/-- C5 witness: a concrete silent send with budget 3. -/
theorem C5_timeout_success_witness :
    ((0 : Int) < 3) ∧
    ((sendGo [⟨.ok, .ok [], none, .timeout⟩] ⟨3, none⟩ (some freshPool)).res
        = SendResult.ok ∧
      (sendGo [⟨.ok, .ok [], none, .timeout⟩] ⟨3, none⟩ (some freshPool)).notif.retryCount
        = 3 - 1 ∧
      (sendGo [⟨.ok, .ok [], none, .timeout⟩] ⟨3, none⟩ (some freshPool)).attempts = 1) :=
  ⟨by decide,
   by
    have h := C5_timeout_success ⟨3, none⟩ [] ⟨0, false, false⟩
      [⟨1, false, false⟩, ⟨2, false, false⟩, ⟨3, false, false⟩, ⟨4, false, false⟩] []
      (by decide)
    exact h⟩

/-- C3 counterexample: budget 3, first write fails, the single retry then
succeeds silently; the final result is success but the retry budget went
from 3 to 1 — a decrease of 2, not 1 (both the failed attempt and the retry
pass through the decrement at the top of `Send`). -/
theorem C3_budget_counterexample :
    (sendGo [⟨.ok, .ok [], some "write: broken pipe", .timeout⟩,
        ⟨.ok, .ok [], none, .timeout⟩] ⟨3, none⟩ (some freshPool)).res
      = SendResult.ok ∧
    (sendGo [⟨.ok, .ok [], some "write: broken pipe", .timeout⟩,
        ⟨.ok, .ok [], none, .timeout⟩] ⟨3, none⟩ (some freshPool)).notif.retryCount = 1 ∧
    ¬ ((sendGo [⟨.ok, .ok [], some "write: broken pipe", .timeout⟩,
        ⟨.ok, .ok [], none, .timeout⟩] ⟨3, none⟩ (some freshPool)).notif.retryCount
      = 3 - 1) := by
  refine ⟨rfl, rfl, by decide⟩

/-- C3 amended: for a send with retry budget at least 2 whose first write
fails and whose single retry then succeeds, `Send` returns success and the
retry budget decreases by exactly 2 — one unit consumed by the failed
initial attempt, one by the successful retry. -/
theorem C3_retry_budget (n : PushNotification) (e : String) (pl1 pl2 : List Nat)
    (c1 c2 : APNSConn) (rest : List APNSConn) (envs : List AttemptEnv)
    (hb : 2 ≤ n.retryCount) :
    (sendGo (⟨.ok, .ok pl1, some e, .timeout⟩ :: ⟨.ok, .ok pl2, none, .timeout⟩ :: envs)
        n (some (c1 :: c2 :: rest))).res = SendResult.ok ∧
    (sendGo (⟨.ok, .ok pl1, some e, .timeout⟩ :: ⟨.ok, .ok pl2, none, .timeout⟩ :: envs)
        n (some (c1 :: c2 :: rest))).notif.retryCount = n.retryCount - 2 := by
  obtain ⟨i1, cc1, ct1⟩ := c1
  obtain ⟨i2, cc2, ct2⟩ := c2
  have hb1 : ¬ (n.retryCount ≤ 0) := by omega
  have hb2 : ¬ (n.retryCount - 1 ≤ 0) := by omega
  cases cc1 <;> cases ct1 <;> cases cc2 <;> cases ct2 <;>
    · unfold sendGo
      rw [if_neg hb1]
      unfold sendGo
      simp [APNSConn.connect, APNSConn.close, hb2]
      try omega

/-- C3 witness: budget 4, write failure then silent success: result is
success with final budget 2. -/
theorem C3_retry_budget_witness :
    ((2 : Int) ≤ 4) ∧
    ((sendGo [⟨.ok, .ok [], some "werr", .timeout⟩, ⟨.ok, .ok [], none, .timeout⟩]
        ⟨4, none⟩ (some [⟨8, false, false⟩, ⟨9, false, false⟩])).res = SendResult.ok ∧
      (sendGo [⟨.ok, .ok [], some "werr", .timeout⟩, ⟨.ok, .ok [], none, .timeout⟩]
        ⟨4, none⟩ (some [⟨8, false, false⟩, ⟨9, false, false⟩])).notif.retryCount = 4 - 2) :=
  ⟨by decide,
   C3_retry_budget ⟨4, none⟩ "werr" [] [] ⟨8, false, false⟩ ⟨9, false, false⟩ [] []
     (by decide)⟩

/-- C4 counterexample: a read that fails with a transport error that is
neither a timeout nor `io.EOF` returns the error to the caller but leaves
the connection's `Connected` flag true — the code only clears the flag on
the EOF branch of the read-error path. -/
theorem C4_read_error_counterexample :
    (sendGo [⟨.ok, .ok [], none, .otherErr "read: connection reset by peer"⟩]
        ⟨1, none⟩ (some [⟨0, true, true⟩])).res
      = SendResult.err "read: connection reset by peer" ∧
    (sendGo [⟨.ok, .ok [], none, .otherErr "read: connection reset by peer"⟩]
        ⟨1, none⟩ (some [⟨0, true, true⟩])).pool = [⟨0, true, true⟩] ∧
    ¬ ((sendGo [⟨.ok, .ok [], none, .otherErr "read: connection reset by peer"⟩]
        ⟨1, none⟩ (some [⟨0, true, true⟩])).pool.map APNSConn.connected = [false]) := by
  refine ⟨rfl, rfl, by decide⟩

/-- C4 amended: `Connected` goes from true to false on a write error, on an
`io.EOF` read error, and on explicit `Close` when a TLS handle exists; but a
read error that is neither a timeout nor EOF is returned with the
connection still marked `Connected`. -/
theorem C4_connected_transitions :
    (∀ (c : APNSConn) (e : String), c.connected = true →
        (sendGo [⟨.ok, .ok [], some e, .timeout⟩] ⟨1, none⟩ (some [c])).pool.map
            APNSConn.connected = [false]) ∧
    (∀ c : APNSConn, c.connected = true →
        (sendGo [⟨.ok, .ok [], none, .eof⟩] ⟨1, none⟩ (some [c])).pool.map
            APNSConn.connected = [false]) ∧
    (∀ c : APNSConn, c.hasTls = true → (APNSConn.close c).connected = false) ∧
    (∀ (c : APNSConn) (e : String), c.connected = true →
        (sendGo [⟨.ok, .ok [], none, .otherErr e⟩] ⟨1, none⟩ (some [c])).res
            = SendResult.err e ∧
        (sendGo [⟨.ok, .ok [], none, .otherErr e⟩] ⟨1, none⟩ (some [c])).pool.map
            APNSConn.connected = [true]) := by
  refine ⟨?_, ?_, ?_, ?_⟩
  · intro c e hc
    obtain ⟨i, cc, ct⟩ := c
    subst hc
    cases ct <;> simp [sendGo, APNSConn.connect, APNSConn.close]
  · intro c hc
    obtain ⟨i, cc, ct⟩ := c
    subst hc
    cases ct <;> simp [sendGo, APNSConn.connect, APNSConn.close]
  · intro c hc
    simp [APNSConn.close, hc]
  · intro c e hc
    obtain ⟨i, cc, ct⟩ := c
    subst hc
    cases ct <;> simp [sendGo, APNSConn.connect, APNSConn.close]

/-- C4 witness: the four transitions at a concrete connected connection. -/
theorem C4_connected_transitions_witness :
    ((sendGo [⟨.ok, .ok [], some "werr", .timeout⟩] ⟨1, none⟩
        (some [⟨7, true, true⟩])).pool.map APNSConn.connected = [false]) ∧
    ((sendGo [⟨.ok, .ok [], none, .eof⟩] ⟨1, none⟩
        (some [⟨7, true, true⟩])).pool.map APNSConn.connected = [false]) ∧
    ((APNSConn.close ⟨7, true, true⟩).connected = false) ∧
    ((sendGo [⟨.ok, .ok [], none, .otherErr "reset"⟩] ⟨1, none⟩
        (some [⟨7, true, true⟩])).res = SendResult.err "reset") :=
  ⟨C4_connected_transitions.1 ⟨7, true, true⟩ "werr" rfl,
   C4_connected_transitions.2.1 ⟨7, true, true⟩ rfl,
   C4_connected_transitions.2.2.1 ⟨7, true, true⟩ rfl,
   (C4_connected_transitions.2.2.2 ⟨7, true, true⟩ "reset" rfl).1⟩

/-- Invariant of the pool channel: available plus checked-out connections
always total the construction capacity. -/
theorem poolReach_sum {N : Nat} {s : PoolState} (h : PoolReach N s) :
    s.available + s.checkedOut = N := by
  induction h with
  | init => rfl
  | step _ hstep ih => cases hstep <;> simp_all <;> omega

/-- C9: in every state reachable under the acquire/release discipline of a
pool built with capacity `maxPoolSize` (= 5), at most `maxPoolSize`
connections are checked out; a pool of capacity 1 never has two holders;
and from an empty pool the only enabled step is a release — an acquire
must wait for one. -/
theorem C9_pool_bounded :
    (∀ s : PoolState, PoolReach maxPoolSize s → s.checkedOut ≤ maxPoolSize) ∧
    (∀ s : PoolState, PoolReach 1 s → s.checkedOut ≤ 1) ∧
    (∀ (c : Nat) (t : PoolState), PoolStep ⟨0, c⟩ t →
        t.available = 1 ∧ c = t.checkedOut + 1) := by
  refine ⟨?_, ?_, ?_⟩
  · intro s h
    have := poolReach_sum h
    omega
  · intro s h
    have := poolReach_sum h
    omega
  · intro c t hstep
    cases hstep with
    | release a c' => exact ⟨rfl, rfl⟩

/-- C9 witness: one connection checked out of the full pool, the singleton
pool serialized at one holder, and a release from the empty pool. -/
theorem C9_pool_bounded_witness :
    (PoolReach maxPoolSize ⟨4, 1⟩ ∧ 1 ≤ maxPoolSize) ∧
    (PoolReach 1 ⟨0, 1⟩ ∧ 1 ≤ 1) ∧
    (PoolStep ⟨0, 1⟩ ⟨1, 0⟩ ∧ (1 : Nat) = 0 + 1) :=
  have h1 : PoolReach maxPoolSize ⟨4, 1⟩ := .step .init (.get 4 0)
  have h2 : PoolReach 1 ⟨0, 1⟩ := .step .init (.get 0 0)
  have h3 : PoolStep ⟨0, 1⟩ ⟨1, 0⟩ := .release 0 0
  ⟨⟨h1, C9_pool_bounded.1 ⟨4, 1⟩ h1⟩,
   ⟨h2, C9_pool_bounded.2.1 ⟨0, 1⟩ h2⟩,
   ⟨h3, (C9_pool_bounded.2.2 1 ⟨1, 0⟩ h3).2⟩⟩

/-- C8: when the certificate blocks and the key block all parse (at least
one leading CERTIFICATE block, a trailing key block that decrypts, an RSA
private key recovered either directly as PKCS#1 or through the PKCS#8
fallback, a parseable RSA leaf certificate) but the leaf's public modulus
differs from the key's, `LoadPem` returns the key-mismatch error. -/
theorem C8_key_mismatch (env : CryptoEnv) (blocks : List PemBlock) (passphrase : String)
    (keyBlock : PemBlock) (tail : List PemBlock) (db : List Nat)
    (key : RSAPrivateKey) (x509Cert : X509Certificate)
    (hcb : blocks.takeWhile (fun b => b.type = "CERTIFICATE") ≠ [])
    (hkb : blocks.dropWhile (fun b => b.type = "CERTIFICATE") = keyBlock :: tail)
    (hdec : env.decryptPEMBlock keyBlock passphrase = .ok db)
    (hk : env.parsePKCS1PrivateKey db = .ok key ∨
      ((∃ e, env.parsePKCS1PrivateKey db = .error e) ∧
        env.parsePKCS8PrivateKey db = .ok (.rsa key)))
    (hx : env.parseCertificate
        (((blocks.takeWhile (fun b => b.type = "CERTIFICATE")).map PemBlock.bytes).getD 0 [])
      = .ok x509Cert)
    (_halg : x509Cert.publicKeyAlgorithm = .RSA)
    (hmod : x509Cert.publicKeyModulus ≠ key.modulus) :
    (LoadPem env blocks passphrase).2
      = some "crypto/tls: private key does not match public key" := by
  have hne : ¬ (((blocks.takeWhile (fun b => b.type = "CERTIFICATE")).map
      PemBlock.bytes).length = 0) := by
    simpa using hcb
  unfold LoadPem
  rw [if_neg hne]
  rcases hk with hk1 | ⟨⟨e1, he1⟩, hk8⟩
  · simp only [hkb, hdec, hk1, hx]
    rw [if_pos (Or.inr hmod)]
  · simp only [hkb, hdec, he1, hk8, hx]
    rw [if_pos (Or.inr hmod)]

/-- C8 witness: two concrete oracles where the leaf certificate's modulus
(7) differs from the private key's (5) — one with the key parsed directly
as PKCS#1, one where PKCS#1 parsing fails and the key is recovered through
the PKCS#8 fallback. -/
theorem C8_key_mismatch_witness :
    (LoadPem
        ⟨fun _ _ => .ok [1], fun _ => .ok ⟨5⟩, fun _ => .ok .nonRSA,
          fun _ => .ok ⟨.RSA, 7⟩⟩
        [⟨"CERTIFICATE", [0]⟩, ⟨"RSA PRIVATE KEY", [9]⟩] "secret").2
      = some "crypto/tls: private key does not match public key" ∧
    (LoadPem
        ⟨fun _ _ => .ok [1], fun _ => .error "asn1: structure error",
          fun _ => .ok (.rsa ⟨5⟩), fun _ => .ok ⟨.RSA, 7⟩⟩
        [⟨"CERTIFICATE", [0]⟩, ⟨"ENCRYPTED PRIVATE KEY", [9]⟩] "secret").2
      = some "crypto/tls: private key does not match public key" :=
  ⟨C8_key_mismatch
    ⟨fun _ _ => .ok [1], fun _ => .ok ⟨5⟩, fun _ => .ok .nonRSA, fun _ => .ok ⟨.RSA, 7⟩⟩
    [⟨"CERTIFICATE", [0]⟩, ⟨"RSA PRIVATE KEY", [9]⟩] "secret"
    ⟨"RSA PRIVATE KEY", [9]⟩ [] [1] ⟨5⟩ ⟨.RSA, 7⟩
    (by decide) (by decide) rfl (Or.inl rfl) rfl rfl (by decide),
   C8_key_mismatch
    ⟨fun _ _ => .ok [1], fun _ => .error "asn1: structure error",
      fun _ => .ok (.rsa ⟨5⟩), fun _ => .ok ⟨.RSA, 7⟩⟩
    [⟨"CERTIFICATE", [0]⟩, ⟨"ENCRYPTED PRIVATE KEY", [9]⟩] "secret"
    ⟨"ENCRYPTED PRIVATE KEY", [9]⟩ [] [1] ⟨5⟩ ⟨.RSA, 7⟩
    (by decide) (by decide) rfl (Or.inr ⟨⟨"asn1: structure error", rfl⟩, rfl⟩) rfl rfl
    (by decide)⟩

/-- Appending a released connection with the acquired connection's identity
preserves the pool's membership up to permutation. -/
theorem perm_step (xs ys : List APNSConn) (c d : APNSConn) (hid : d.id = c.id)
    (h : (xs.map APNSConn.id).Perm (ys.map APNSConn.id)) :
    ((xs ++ [d]).map APNSConn.id).Perm ((c :: ys).map APNSConn.id) := by
  simp only [List.map_append, List.map_cons, List.map_nil, hid]
  exact (List.perm_append_singleton c.id (xs.map APNSConn.id)).trans (h.cons c.id)

/-- C2: for every oracle, notification and pool, the pool's contents after a
`Send` call are a permutation of its contents before — every connection any
recursion level acquired (`pool.Get()`) is released back (`defer
pool.Release(conn)`) by the time the call returns, on every outcome
(success, every error path, and retry recursion). -/
theorem C2_connections_released (envs : List AttemptEnv) :
    ∀ (n : PushNotification) (ps : List APNSConn),
      ((sendGo envs n (some ps)).pool.map APNSConn.id).Perm (ps.map APNSConn.id) := by
  induction envs with
  | nil =>
    intro n ps
    unfold sendGo
    by_cases hb : n.retryCount ≤ 0
    · rw [if_pos hb]
      cases n.error <;> simp
    · rw [if_neg hb]
      cases ps with
      | nil => simp
      | cons conn rest =>
        exact perm_step rest rest conn conn rfl (List.Perm.refl _)
  | cons env envs1 ih =>
    intro n ps
    unfold sendGo
    by_cases hb : n.retryCount ≤ 0
    · rw [if_pos hb]
      cases n.error <;> simp
    · rw [if_neg hb]
      cases ps with
      | nil => simp
      | cons conn rest =>
        have hid := connect_id conn env.connectO
        rcases hcon : APNSConn.connect conn env.connectO with ⟨cerr, conn1⟩
        rw [hcon] at hid
        simp only [hcon]
        cases cerr with
        | some e =>
          exact perm_step rest rest conn conn1 hid (List.Perm.refl _)
        | none =>
          cases htb : env.toBytesO with
          | error e =>
            simp only [htb]
            exact perm_step rest rest conn conn1 hid (List.Perm.refl _)
          | ok pl =>
            simp only [htb]
            cases hw : env.writeO with
            | some e =>
              simp only [hw]
              exact perm_step _ rest conn _ hid (ih _ rest)
            | none =>
              simp only [hw]
              cases hr : env.readO with
              | timeout =>
                exact perm_step rest rest conn conn1 hid (List.Perm.refl _)
              | eof =>
                exact perm_step _ rest conn _ hid (ih _ rest)
              | otherErr e =>
                exact perm_step rest rest conn conn1 hid (List.Perm.refl _)
              | data r buf =>
                dsimp only
                by_cases h0 : buf.getD 1 0 % 256 = 0
                · rw [if_pos h0]
                  exact perm_step rest rest conn conn1 hid (List.Perm.refl _)
                · rw [if_neg h0]
                  by_cases h18 : 1 ≤ buf.getD 1 0 % 256 ∧ buf.getD 1 0 % 256 ≤ 8
                  · rw [if_pos h18]
                    exact perm_step _ rest conn _ hid (ih _ rest)
                  · rw [if_neg h18]
                    exact perm_step _ rest conn _ hid (ih _ rest)

end APNS
